import Mathlib

/-!
Verification development for the flp-log-gatherer repository.

The repository's two core subsystems are shallowly embedded here:
* the job execution / remote inspection engine (`src/rsync_manager.py`), and
* the incremental archiver (`src/compression_manager.py`).

Pure helpers (`human_readable_size`, `parse_ls_output`) are translated
directly.  Stateful and effectful code (retry loops around subprocesses,
the result accumulator, the failure log, the incremental archiver's
filesystem interaction) is translated into explicit state passing, with
the external world (subprocess outcomes, the local file tree) supplied as
explicit oracle arguments.  The semaphore-bounded batch scheduler is
embedded as a small-step transition system.
-/

/-! ## Python string primitives used by the source -/

/-- The characters Python's `str.strip()` / `str.split()` treat as
whitespace: space, tab, newline, carriage return, vertical tab, form feed. -/
def pyIsSpace (c : Char) : Bool :=
  c == ' ' || c == '\t' || c == '\n' || c == '\r' || c == '\x0b' || c == '\x0c'

/-- Python `str.strip()`: drop whitespace from both ends. -/
def pyStrip (s : String) : String :=
  String.mk (((s.data.dropWhile pyIsSpace).reverse.dropWhile pyIsSpace).reverse)

/-- Worker for `pyWords`: split a character list on runs of whitespace,
accumulating the current word in reverse. -/
def pyWordsGo : List Char → List Char → List (List Char)
  | [], acc => if acc.isEmpty then [] else [acc.reverse]
  | c :: cs, acc =>
    if pyIsSpace c then
      if acc.isEmpty then pyWordsGo cs [] else acc.reverse :: pyWordsGo cs []
    else pyWordsGo cs (c :: acc)

/-- Python `str.split()` with no argument: split on runs of whitespace,
never producing empty words. -/
def pyWords (s : List Char) : List (List Char) := pyWordsGo s []

/-- Python's substring test `pat in s`, as infix of the character lists. -/
def pyContains (s pat : String) : Bool := decide (pat.data <:+: s.data)

/-- Python `s.startswith(pre)`, as a character-list prefix test. -/
def pyStartsWith (s pre : String) : Bool := decide (pre.data <+: s.data)

/-- Worker for `splitLines`. -/
def splitLinesGo : List Char → List Char → List String
  | [], acc => [String.mk acc.reverse]
  | c :: cs, acc =>
    if c = '\n' then String.mk acc.reverse :: splitLinesGo cs []
    else splitLinesGo cs (c :: acc)

/-- Python `s.split('\n')`: split at every newline, keeping empty pieces. -/
def splitLines (s : String) : List String := splitLinesGo s.data []

/-- Python `sep.join(xs)`. -/
def joinSep (sep : String) : List String → String
  | [] => ""
  | [x] => x
  | x :: y :: xs => x ++ sep ++ joinSep sep (y :: xs)

/-- Python `str.lower()` (ASCII case fold suffices for the source's uses). -/
def pyLower (s : String) : String := String.mk (s.data.map Char.toLower)

/-- Digit-run accumulator for `parsePyInt`. -/
def pyDigitsCore (ds : List Char) : Option Nat :=
  ds.foldl (fun acc c =>
    acc.bind (fun a => if c.isDigit then some (a * 10 + (c.toNat - 48)) else none))
    (some 0)

/-- Nonempty all-digit run to a natural number. -/
def pyDigits (ds : List Char) : Option Nat :=
  if ds.isEmpty then none else pyDigitsCore ds

/-- Python `int(s)` on a whitespace-free field: optional sign then a
nonempty digit run; anything else raises `ValueError` (here: `none`). -/
def parsePyInt (s : String) : Option Int :=
  match s.data with
  | '+' :: ds => (pyDigits ds).map (fun n => (n : Int))
  | '-' :: ds => (pyDigits ds).map (fun n => -(n : Int))
  | ds => (pyDigits ds).map (fun n => (n : Int))

/-! ## `human_readable_size` (src/rsync_manager.py lines 22-46)

The source repeatedly divides a float by 1024, then renders with
`f"{size:.1f}"`.  For the comparisons `size >= 1024.0` the float value is
`size_bytes / 1024^k` exactly (division by a power of two is exact), and
an integer bound compares equally against the exact value and its floor,
so the unit index is computed below with floor division.  The `%.1f`
rendering is correctly-rounded with ties to even, embedded exactly with
`rneDigits`. -/

/-- The unit ladder from the source. -/
def hrsUnits : List String := ["B", "KB", "MB", "GB", "TB", "PB"]

/-- The source's `while size >= 1024.0 and unit_index < len(units) - 1`
loop, counting divisions.  The loop body runs at most 5 times (the
`unit_index < 5` conjunct), so fuel 5 makes the recursion structural. -/
def hrsLoop : Nat → Nat → Nat → Nat
  | 0, _, unit_index => unit_index
  | fuel + 1, size, unit_index =>
    if 1024 ≤ size ∧ unit_index < 5 then hrsLoop fuel (size / 1024) (unit_index + 1)
    else unit_index

/-- Unit index chosen by the source's division loop, starting at 0. -/
def hrsUnitIdx (size : Nat) : Nat := hrsLoop 5 size 0

/-- Round `num / den` to the nearest integer, ties to even (the rounding
performed by CPython's `%.1f` on the exact binary value, scaled by 10). -/
def rneDiv (num den : Nat) : Nat :=
  let q := num / den
  let r := num % den
  if 2 * r < den then q
  else if den < 2 * r then q + 1
  else if q % 2 = 0 then q else q + 1

/-- `human_readable_size` from src/rsync_manager.py.  The argument is an
`Int` as in Python; a negative size never enters the division loop and is
rendered in bytes (`int(size)` truncates toward zero, which is the number
itself). -/
def human_readable_size (size_bytes : Int) : String :=
  if size_bytes = 0 then "0 B"
  else
    let k := hrsUnitIdx size_bytes.toNat
    if k = 0 then toString size_bytes ++ " B"
    else
      let q := rneDiv (10 * size_bytes.toNat) (1024 ^ k)
      toString (q / 10) ++ "." ++ toString (q % 10) ++ " " ++ hrsUnits.getD k "PB"

/-! Characterization of the unit-index loop. -/

theorem hrsUnitIdx_eq (n : Nat) :
    hrsUnitIdx n =
      if n < 1024 then 0
      else if n < 1048576 then 1
      else if n < 1073741824 then 2
      else if n < 1099511627776 then 3
      else if n < 1125899906842624 then 4
      else 5 := by
  simp only [hrsUnitIdx, hrsLoop]
  split_ifs <;> omega

/-- C8: `human_readable_size` formats any non-negative byte count with
binary (1024-based) units B/KB/MB/GB/TB/PB — the unit index is the number
of 1024-divisions needed to bring the value under 1024, capped at PB —
using one decimal place except for whole-byte values; in particular
`human_readable_size 0 = "0 B"`, `human_readable_size 1536 = "1.5 KB"`,
and `human_readable_size 1099511627776 = "1.0 TB"`. -/
theorem C8_human_readable_size :
    human_readable_size 0 = "0 B" ∧
    human_readable_size 1536 = "1.5 KB" ∧
    human_readable_size 1099511627776 = "1.0 TB" ∧
    (∀ n : Nat, 0 < n →
      ∃ k, k = hrsUnitIdx n ∧ k ≤ 5 ∧
        (k < 5 → n < 1024 ^ (k + 1)) ∧ (0 < k → 1024 ^ k ≤ n) ∧
        (k = 0 → human_readable_size (n : Int) = toString (n : Int) ++ " B") ∧
        (0 < k → ∃ a b : Nat, b < 10 ∧
          human_readable_size (n : Int) =
            toString a ++ "." ++ toString b ++ " " ++ hrsUnits.getD k "PB")) := by
  refine ⟨by decide, by decide, by decide, ?_⟩
  intro n hn
  have hne : (n : Int) ≠ 0 := by exact_mod_cast hn.ne'
  have htn : ((n : Int)).toNat = n := Int.toNat_natCast n
  have hidx := hrsUnitIdx_eq n
  refine ⟨hrsUnitIdx n, rfl, ?_, ?_, ?_, ?_, ?_⟩
  · rw [hidx]; split_ifs <;> omega
  · rw [hidx]; split_ifs <;> intro h <;> norm_num <;> omega
  · rw [hidx]; split_ifs <;> intro h <;> norm_num <;> omega
  · intro hk0
    simp [human_readable_size, hne, htn, hk0]
  · intro hkpos
    refine ⟨rneDiv (10 * n) (1024 ^ hrsUnitIdx n) / 10,
      rneDiv (10 * n) (1024 ^ hrsUnitIdx n) % 10, Nat.mod_lt _ (by norm_num), ?_⟩
    simp only [human_readable_size, if_neg hne, htn, if_neg (by omega : ¬ hrsUnitIdx n = 0)]

/-- Witness for C8 at the concrete input 1536. -/
theorem C8_human_readable_size_witness :
    (0 : Nat) < 1536 ∧
    (∃ k, k = hrsUnitIdx 1536 ∧ k ≤ 5 ∧
      (k < 5 → 1536 < 1024 ^ (k + 1)) ∧ (0 < k → 1024 ^ k ≤ 1536) ∧
      (k = 0 → human_readable_size ((1536 : Nat) : Int) =
        toString ((1536 : Nat) : Int) ++ " B") ∧
      (0 < k → ∃ a b : Nat, b < 10 ∧
        human_readable_size ((1536 : Nat) : Int) =
          toString a ++ "." ++ toString b ++ " " ++ hrsUnits.getD k "PB")) :=
  ⟨by decide, C8_human_readable_size.2.2.2 1536 (by decide)⟩

/-! ## `parse_ls_output` (src/rsync_manager.py lines 49-113) -/

/-- One parsed file record, the dictionary appended by `parse_ls_output`.
At the point of appending, the directory case has already been skipped, so
`is_directory` is always `false` in a produced record, exactly as in the
source. -/
structure LsEntry where
  name : String
  size_bytes : Int
  size_human : String
  permissions : String
  is_directory : Bool
  mod_time : String
deriving Repr, DecidableEq

/-- The whitespace-separated fields of a (stripped) listing line, Python's
`line.split()`. -/
def lsParts (line : String) : List String :=
  (pyWords line.data).map String.mk

/-- The per-line body of the `for line in lines` loop of
`parse_ls_output`: `none` means the line is skipped (`continue`). -/
def parseLsLine (rawLine : String) : Option LsEntry :=
  let line := pyStrip rawLine
  if line = "" then none
  else if pyStartsWith line "total " then none
  else if pyContains line "No such file or directory" ||
          pyContains line "Permission denied" then none
  else
    let parts := lsParts line
    if parts.length < 9 then none
    else
      let permissions := parts.getD 0 ""
      let filename := joinSep " " (parts.drop 8)
      if filename = "." || filename = ".." then none
      else if pyStartsWith permissions "d" then none
      else
        match parsePyInt (parts.getD 4 "") with
        | none => none
        | some size_bytes =>
          some { name := filename
                 size_bytes := size_bytes
                 size_human := human_readable_size size_bytes
                 permissions := permissions
                 is_directory := false
                 mod_time := joinSep " " ((parts.drop 5).take 3) }

/-- `parse_ls_output` from src/rsync_manager.py: strip the whole text,
split into lines, and keep the records of the lines that parse. -/
def parse_ls_output (ls_output : String) : List LsEntry :=
  (splitLines (pyStrip ls_output)).filterMap parseLsLine

/-- The synthetic listing text of the claim: one directory line, one
malformed line (non-integer size field), one valid file line of size 4096
whose name contains a space. -/
def lsExampleText : String :=
  "total 12\n" ++
  "drwxr-xr-x 2 root root 4096 Oct 8 12:00 subdir\n" ++
  "-rw-r--r-- 1 root root xyz Oct 8 12:01 bad.log\n" ++
  "-rw-r--r-- 1 root root 4096 Oct 8 12:02 app one.log"

/-- C5: `parse_ls_output` skips total lines, error lines, directory
entries and malformed lines (fewer than nine fields or a non-integer size
field) without aborting, joins the trailing fields so names containing
spaces survive, and on the claim's synthetic text returns exactly one
record, named "app one.log" with 4096 bytes. -/
theorem C5_parse_ls_output :
    parse_ls_output lsExampleText =
      [{ name := "app one.log", size_bytes := 4096, size_human := "4.0 KB",
         permissions := "-rw-r--r--", is_directory := false,
         mod_time := "Oct 8 12:02" }] ∧
    (∀ l, pyStartsWith (pyStrip l) "total " = true → parseLsLine l = none) ∧
    (∀ l, pyContains (pyStrip l) "No such file or directory" = true →
      parseLsLine l = none) ∧
    (∀ l, pyContains (pyStrip l) "Permission denied" = true →
      parseLsLine l = none) ∧
    (∀ l, (lsParts (pyStrip l)).length < 9 → parseLsLine l = none) ∧
    (∀ l, 9 ≤ (lsParts (pyStrip l)).length →
      pyStartsWith ((lsParts (pyStrip l)).getD 0 "") "d" = true →
      parseLsLine l = none) ∧
    (∀ l, 9 ≤ (lsParts (pyStrip l)).length →
      parsePyInt ((lsParts (pyStrip l)).getD 4 "") = none →
      parseLsLine l = none) := by
  refine ⟨by decide, ?_, ?_, ?_, ?_, ?_, ?_⟩
  · intro l h
    simp only [parseLsLine, h]
    split_ifs <;> simp_all
  · intro l h
    simp only [parseLsLine, h]
    split_ifs <;> simp_all
  · intro l h
    simp only [parseLsLine, h]
    split_ifs <;> simp_all
  · intro l h
    simp only [parseLsLine]
    split_ifs <;> simp_all
  · intro l hlen h
    simp only [parseLsLine, h]
    split_ifs <;> simp_all
  · intro l hlen h
    simp only [parseLsLine, h]
    split_ifs <;> simp_all

/-- Witness for C5: the universal skip clauses applied at concrete lines. -/
theorem C5_parse_ls_output_witness :
    parseLsLine "total 99" = none ∧
    parseLsLine "ls: cannot access /x: No such file or directory" = none ∧
    parseLsLine "drwxr-xr-x 2 root root 4096 Oct 8 12:00 subdir" = none ∧
    parseLsLine "-rw-r--r-- 1 root root" = none ∧
    parseLsLine "-rw-r--r-- 1 root root xyz Oct 8 12:01 bad.log" = none :=
  ⟨C5_parse_ls_output.2.1 "total 99" (by decide),
   C5_parse_ls_output.2.2.1 "ls: cannot access /x: No such file or directory"
     (by decide),
   C5_parse_ls_output.2.2.2.2.2.1 "drwxr-xr-x 2 root root 4096 Oct 8 12:00 subdir"
     (by decide) (by decide),
   C5_parse_ls_output.2.2.2.2.1 "-rw-r--r-- 1 root root" (by decide),
   C5_parse_ls_output.2.2.2.2.2.2 "-rw-r--r-- 1 root root xyz Oct 8 12:01 bad.log"
     (by decide) (by decide)⟩

/-! ## The job execution engine (src/rsync_manager.py lines 116-338)

`execute_job` drives an external rsync process.  The adapter's behaviour
on each attempt is supplied as an oracle `Nat → AttemptOutcome` indexed by
the attempt number; the fixed sleeps taken between attempts are collected
in a trace.  Wall-clock duration is not modelled. -/

/-- The `RsyncJob` dataclass. -/
structure RsyncJob where
  hostname : String
  app_name : String
  remote_path : String
  local_path : String
  flags : List String
  ssh_user : String := "root"
  ssh_port : Nat := 22
  ssh_ignore_host_key : Bool := true
  gateway_host : Option String := none
  gateway_user : Option String := none
  gateway_port : Nat := 22
deriving Repr, DecidableEq

/-- The `JobResult` dataclass (the wall-clock `duration` field is not
modelled). -/
structure JobResult where
  job : RsyncJob
  success : Bool
  stdout : String
  stderr : String
  return_code : Int
  attempts : Nat
deriving Repr, DecidableEq

/-- What one attempt's subprocess interaction can produce: completion
with an exit code and captured streams, a timeout of
`asyncio.wait_for`, or an exception from command construction or
process creation. -/
inductive AttemptOutcome where
  | completed (return_code : Int) (stdout stderr : String)
  | timedOut
  | raised (msg : String)
deriving Repr, DecidableEq

/-- The `RsyncManager.__init__` tunables. -/
structure RsyncConfig where
  max_parallel_jobs : Nat := 5
  retry_count : Nat := 3
  retry_delay : Nat := 5
  timeout : Nat := 300
deriving Repr, DecidableEq

/-- The `while attempts < self.retry_count` loop of `execute_job`.  The
loop guard is encoded in the fuel: fuel equals
`retry_count - attempts`, so fuel 0 is exactly the guard failing, which
falls through to the `"Max retries exceeded"` result.  `sleeps` traces
the `await asyncio.sleep(self.retry_delay)` calls. -/
def executeJobGo (cfg : RsyncConfig) (job : RsyncJob)
    (oracle : Nat → AttemptOutcome) :
    Nat → Nat → List Nat → JobResult × List Nat
  | 0, attempts, sleeps =>
    ({ job := job, success := false, stdout := "",
       stderr := "Max retries exceeded", return_code := -1,
       attempts := attempts }, sleeps)
  | fuel + 1, attempts, sleeps =>
    let a := attempts + 1
    match oracle a with
    | .completed rc out err =>
      if rc = 0 then
        ({ job := job, success := true, stdout := out, stderr := err,
           return_code := rc, attempts := a }, sleeps)
      else if a < cfg.retry_count then
        executeJobGo cfg job oracle fuel a (sleeps ++ [cfg.retry_delay])
      else
        ({ job := job, success := false, stdout := out, stderr := err,
           return_code := rc, attempts := a }, sleeps)
    | .timedOut =>
      if a < cfg.retry_count then
        executeJobGo cfg job oracle fuel a (sleeps ++ [cfg.retry_delay])
      else
        ({ job := job, success := false, stdout := "",
           stderr := "Timeout after " ++ toString cfg.timeout ++ "s",
           return_code := -1, attempts := a }, sleeps)
    | .raised msg =>
      if a < cfg.retry_count then
        executeJobGo cfg job oracle fuel a (sleeps ++ [cfg.retry_delay])
      else
        ({ job := job, success := false, stdout := "", stderr := msg,
           return_code := -1, attempts := a }, sleeps)

/-- `execute_job`: run the retry loop from zero attempts. -/
def execute_job (cfg : RsyncConfig) (job : RsyncJob)
    (oracle : Nat → AttemptOutcome) : JobResult × List Nat :=
  executeJobGo cfg job oracle cfg.retry_count 0 []

/-- An attempt outcome on which the source's loop does not return with
success: non-zero exit, timeout, or exception. -/
def failingOutcome : AttemptOutcome → Prop
  | .completed rc _ _ => rc ≠ 0
  | .timedOut => True
  | .raised _ => True

theorem executeJobGo_all_fail (cfg : RsyncConfig) (job : RsyncJob)
    (oracle : Nat → AttemptOutcome)
    (hfail : ∀ i, failingOutcome (oracle i)) :
    ∀ fuel attempts sleeps, attempts + fuel = cfg.retry_count →
      (executeJobGo cfg job oracle fuel attempts sleeps).1.success = false ∧
      (executeJobGo cfg job oracle fuel attempts sleeps).1.attempts =
        cfg.retry_count ∧
      (executeJobGo cfg job oracle fuel attempts sleeps).2 =
        sleeps ++ List.replicate (fuel - 1) cfg.retry_delay := by
  intro fuel
  induction fuel with
  | zero =>
    intro attempts sleeps hsum
    simp [executeJobGo]
    omega
  | succ f ih =>
    intro attempts sleeps hsum
    have hf := hfail (attempts + 1)
    rcases ho : oracle (attempts + 1) with ⟨rc, out, err⟩ | - | msg
    all_goals simp only [executeJobGo, ho]
    · rw [ho] at hf
      simp only [failingOutcome] at hf
      rw [if_neg hf]
      by_cases hlt : attempts + 1 < cfg.retry_count
      · rw [if_pos hlt]
        have := ih (attempts + 1) (sleeps ++ [cfg.retry_delay]) (by omega)
        refine ⟨this.1, this.2.1, ?_⟩
        rw [this.2.2, List.append_assoc]
        congr 1
        have hfpos : 1 ≤ f := by omega
        rw [show f + 1 - 1 = (f - 1) + 1 by omega, List.replicate_succ]
        simp
      · rw [if_neg hlt]
        simp
        omega
    · by_cases hlt : attempts + 1 < cfg.retry_count
      · rw [if_pos hlt]
        have := ih (attempts + 1) (sleeps ++ [cfg.retry_delay]) (by omega)
        refine ⟨this.1, this.2.1, ?_⟩
        rw [this.2.2, List.append_assoc]
        congr 1
        rw [show f + 1 - 1 = (f - 1) + 1 by omega, List.replicate_succ]
        simp
      · rw [if_neg hlt]
        simp
        omega
    · by_cases hlt : attempts + 1 < cfg.retry_count
      · rw [if_pos hlt]
        have := ih (attempts + 1) (sleeps ++ [cfg.retry_delay]) (by omega)
        refine ⟨this.1, this.2.1, ?_⟩
        rw [this.2.2, List.append_assoc]
        congr 1
        rw [show f + 1 - 1 = (f - 1) + 1 by omega, List.replicate_succ]
        simp
      · rw [if_neg hlt]
        simp
        omega

/-- C2: if every attempt fails (non-zero exit, timeout, or adapter
exception), `execute_job` performs exactly `retry_count` attempts, sleeps
the fixed `retry_delay` between consecutive attempts (`retry_count - 1`
sleeps), and the final `JobResult` has `success = false` and `attempts =
retry_count`. -/
theorem C2_execute_job_retries (cfg : RsyncConfig) (job : RsyncJob)
    (oracle : Nat → AttemptOutcome)
    (hfail : ∀ i, failingOutcome (oracle i)) :
    (execute_job cfg job oracle).1.success = false ∧
    (execute_job cfg job oracle).1.attempts = cfg.retry_count ∧
    (execute_job cfg job oracle).2 =
      List.replicate (cfg.retry_count - 1) cfg.retry_delay := by
  have := executeJobGo_all_fail cfg job oracle hfail cfg.retry_count 0 []
    (by omega)
  exact ⟨this.1, this.2.1, by simpa using this.2.2⟩

/-- A sample job used by concrete witnesses. -/
def sampleJob : RsyncJob :=
  { hostname := "example.com", app_name := "nginx",
    remote_path := "/var/log/nginx", local_path := "logs/example.com/nginx",
    flags := ["-az"] }

/-- Witness for C2: an adapter that always times out, with the default
configuration (three attempts). -/
theorem C2_execute_job_retries_witness :
    (execute_job {} sampleJob (fun _ => AttemptOutcome.timedOut)).1.success
      = false ∧
    (execute_job {} sampleJob (fun _ => AttemptOutcome.timedOut)).1.attempts
      = RsyncConfig.retry_count {} ∧
    (execute_job {} sampleJob (fun _ => AttemptOutcome.timedOut)).2 =
      List.replicate (RsyncConfig.retry_count {} - 1)
        (RsyncConfig.retry_delay {}) :=
  C2_execute_job_retries {} sampleJob (fun _ => AttemptOutcome.timedOut)
    (fun _ => trivial)

/-! ## Batch execution and the result accumulator
(src/rsync_manager.py lines 531-556 and 631-646) -/

/-- The engine-owned mutable state: `self.results`, the accumulator that
persists across batches until the manager is discarded. -/
structure RsyncManagerState where
  results : List JobResult := []
deriving Repr, DecidableEq

/-- The summary dictionary of `get_summary`. -/
structure Summary where
  total : Nat
  successful : Nat
  failed : Nat
deriving Repr, DecidableEq

/-- `execute_jobs`: run every job (the per-job adapter behaviour is the
oracle, indexed by the job), gather the results in submission order —
`asyncio.gather` returns results in task order — and extend
`self.results`.  Returns the batch's result list and the new state. -/
def execute_jobs (cfg : RsyncConfig)
    (oracle : RsyncJob → Nat → AttemptOutcome)
    (st : RsyncManagerState) (jobs : List RsyncJob) :
    List JobResult × RsyncManagerState :=
  let results := jobs.map (fun j => (execute_job cfg j (oracle j)).1)
  (results, { results := st.results ++ results })

/-- `get_summary`: totals over everything accumulated so far. -/
def get_summary (st : RsyncManagerState) : Summary :=
  let total := st.results.length
  let successful := st.results.countP (fun r => r.success)
  { total := total, successful := successful, failed := total - successful }

/-- A sequence of `execute_jobs` calls on one engine instance. -/
def runBatches (cfg : RsyncConfig)
    (oracle : RsyncJob → Nat → AttemptOutcome)
    (st : RsyncManagerState) (batches : List (List RsyncJob)) :
    RsyncManagerState :=
  batches.foldl (fun s b => (execute_jobs cfg oracle s b).2) st

theorem runBatches_results_length (cfg : RsyncConfig)
    (oracle : RsyncJob → Nat → AttemptOutcome) :
    ∀ (batches : List (List RsyncJob)) (st : RsyncManagerState),
      (runBatches cfg oracle st batches).results.length =
        st.results.length + (batches.map List.length).sum := by
  intro batches
  induction batches with
  | nil => intro st; simp [runBatches]
  | cons b bs ih =>
    intro st
    have := ih (execute_jobs cfg oracle st b).2
    simp only [runBatches, List.foldl_cons] at this ⊢
    rw [this]
    simp [execute_jobs]
    omega

/-- C3: `execute_jobs` returns exactly one result per submitted job, and
after any number of batches on one engine instance the summary's `total`
is the cumulative outcome count across those batches, with
`total = successful + failed`. -/
theorem C3_execute_jobs_counts (cfg : RsyncConfig)
    (oracle : RsyncJob → Nat → AttemptOutcome) :
    (∀ (st : RsyncManagerState) (jobs : List RsyncJob),
      (execute_jobs cfg oracle st jobs).1.length = jobs.length) ∧
    (∀ batches : List (List RsyncJob),
      (get_summary (runBatches cfg oracle {} batches)).total =
        (batches.map List.length).sum) ∧
    (∀ st : RsyncManagerState,
      (get_summary st).total =
        (get_summary st).successful + (get_summary st).failed) := by
  refine ⟨?_, ?_, ?_⟩
  · intro st jobs
    simp [execute_jobs]
  · intro batches
    have := runBatches_results_length cfg oracle batches {}
    simp only [get_summary]
    simpa using this
  · intro st
    have hle : st.results.countP (fun r => r.success) ≤ st.results.length :=
      List.countP_le_length _
    simp only [get_summary]
    omega

/-- An adapter for concrete witnesses: the sample host succeeds at once,
every other host times out. -/
def sampleOracle (j : RsyncJob) : Nat → AttemptOutcome :=
  fun _ => if j.hostname = "example.com"
    then AttemptOutcome.completed 0 "" "" else AttemptOutcome.timedOut

/-- A two-job batch followed by a one-job batch, for concrete witnesses. -/
def sampleBatches : List (List RsyncJob) :=
  [[sampleJob, { sampleJob with hostname := "other" }], [sampleJob]]

/-- Witness for C3: a two-job batch followed by a one-job batch, with an
adapter that makes the first host succeed and every other host fail. -/
theorem C3_execute_jobs_counts_witness :
    (execute_jobs {} sampleOracle {}
      [sampleJob, { sampleJob with hostname := "other" }]).1.length =
      ([sampleJob, { sampleJob with hostname := "other" }] :
        List RsyncJob).length ∧
    (get_summary (runBatches {} sampleOracle {} sampleBatches)).total =
      (sampleBatches.map List.length).sum ∧
    (get_summary (runBatches {} sampleOracle {} sampleBatches)).total =
      (get_summary (runBatches {} sampleOracle {} sampleBatches)).successful +
      (get_summary (runBatches {} sampleOracle {} sampleBatches)).failed :=
  ⟨(C3_execute_jobs_counts {} sampleOracle).1 {}
     [sampleJob, { sampleJob with hostname := "other" }],
   (C3_execute_jobs_counts {} sampleOracle).2.1 sampleBatches,
   (C3_execute_jobs_counts {} sampleOracle).2.2
     (runBatches {} sampleOracle {} sampleBatches)⟩

/-! ## The remote inspection engine (src/rsync_manager.py lines 340-529)

One listing attempt runs `ssh ... find|ls` and either completes with an
exit code and captured streams, raises a retriable transport exception
(`asyncio.TimeoutError` / `OSError` / `ConnectionError` from the await
itself), or raises some other exception.  The per-attempt behaviour is
an oracle indexed by the attempt number. -/

/-- What the subprocess interaction of one listing attempt can do. -/
inductive ListingOutcome where
  | completed (return_code : Int) (stdout stderr : String)
  | raisedRetriable (msg : String)
  | raisedOther (msg : String)
deriving Repr, DecidableEq

/-- The stderr phrases `_check_remote_file_exists_single` matches (on the
lowercased stderr) to classify a non-zero exit as an SSH connection
error. -/
def sshErrorIndicators : List String :=
  ["connection refused", "connection timed out", "host key verification failed",
   "permission denied", "no route to host", "connection reset",
   "ssh: could not resolve hostname", "operation timed out"]

/-- `any(indicator in stderr_str.lower() for indicator in [...])`. -/
def isSshIndicator (err : String) : Bool :=
  sshErrorIndicators.any (fun ind => pyContains (pyLower err) ind)

/-- The `file_info` dictionary built by the inspection code. -/
structure FileInfo where
  files : List LsEntry
  total_size_bytes : Int
  total_size_human : String
  file_count : Nat
  raw_output : String
  error : Option String
  ssh_error : Bool
deriving Repr, DecidableEq

/-- How one call of `_check_remote_file_exists_single` ends: a returned
`(exists, file_info)` pair, a raised `ConnectionError` (which the caller
retries), or any other exception. -/
inductive CheckStep where
  | returned (found : Bool) (info : FileInfo)
  | connectionIssue (msg : String)
  | unexpected (msg : String)
deriving Repr, DecidableEq

/-- `_check_remote_file_exists_single`: on exit 0 parse the listing and
aggregate over non-directory entries; on non-zero exit raise
`ConnectionError` when the stderr matches a connectivity indicator,
otherwise return the legitimate-absence result with `ssh_error = false`.
A retriable exception from the await propagates as a connection issue,
any other exception propagates unchanged. -/
def check_remote_file_exists_single (o : ListingOutcome) : CheckStep :=
  match o with
  | .raisedRetriable msg => .connectionIssue msg
  | .raisedOther msg => .unexpected msg
  | .completed rc out err =>
    if rc = 0 then
      let files := parse_ls_output out
      let nondir := files.filter (fun f => !f.is_directory)
      let total_size_bytes := (nondir.map (fun f => f.size_bytes)).sum
      .returned true
        { files := files, total_size_bytes := total_size_bytes,
          total_size_human := human_readable_size total_size_bytes,
          file_count := nondir.length, raw_output := out,
          error := none, ssh_error := false }
    else if isSshIndicator err then
      .connectionIssue ("SSH connection issue: " ++ pyStrip err)
    else
      .returned false
        { files := [], total_size_bytes := 0, total_size_human := "0 B",
          file_count := 0, raw_output := err, error := some err,
          ssh_error := false }

/-- The `for attempt in range(1, self.retry_count + 1)` loop of
`check_remote_file_exists`.  Fuel is the number of remaining iterations
(`retry_count - attempt + 1`); fuel 0 is the fall-through after the
range is exhausted, reachable only when `retry_count = 0`.  The second
component is the attempt number that produced the returned result (0 for
the fall-through), the third traces the fixed retry sleeps. -/
def checkRemoteGo (cfg : RsyncConfig) (oracle : Nat → ListingOutcome) :
    Nat → Nat → List Nat → (Bool × FileInfo) × Nat × List Nat
  | 0, _, sleeps =>
    ((false,
      { files := [], total_size_bytes := 0, total_size_human := "0 B",
        file_count := 0, raw_output := "",
        error := some "Max retries exceeded", ssh_error := true }), 0, sleeps)
  | fuel + 1, attempt, sleeps =>
    match check_remote_file_exists_single (oracle attempt) with
    | .returned found info => ((found, info), attempt, sleeps)
    | .connectionIssue msg =>
      if attempt < cfg.retry_count then
        checkRemoteGo cfg oracle fuel (attempt + 1) (sleeps ++ [cfg.retry_delay])
      else
        ((false,
          { files := [], total_size_bytes := 0, total_size_human := "0 B",
            file_count := 0, raw_output := "",
            error := some ("SSH connection failed after " ++
              toString cfg.retry_count ++ " attempts: " ++ msg),
            ssh_error := true }), attempt, sleeps)
    | .unexpected msg =>
      ((false,
        { files := [], total_size_bytes := 0, total_size_human := "0 B",
          file_count := 0, raw_output := "",
          error := some ("Unexpected error: " ++ msg), ssh_error := true }),
       attempt, sleeps)

/-- `check_remote_file_exists`: the retry loop from attempt 1. -/
def check_remote_file_exists (cfg : RsyncConfig)
    (oracle : Nat → ListingOutcome) : (Bool × FileInfo) × Nat × List Nat :=
  checkRemoteGo cfg oracle cfg.retry_count 1 []

theorem checkRemoteGo_all_conn (cfg : RsyncConfig)
    (oracle : Nat → ListingOutcome)
    (hconn : ∀ i, ∃ msg,
      check_remote_file_exists_single (oracle i) = .connectionIssue msg) :
    ∀ fuel attempt sleeps, attempt + fuel = cfg.retry_count + 1 →
      1 ≤ attempt → attempt ≤ cfg.retry_count →
      (checkRemoteGo cfg oracle fuel attempt sleeps).1.1 = false ∧
      (checkRemoteGo cfg oracle fuel attempt sleeps).1.2.ssh_error = true ∧
      (checkRemoteGo cfg oracle fuel attempt sleeps).2.1 = cfg.retry_count ∧
      (checkRemoteGo cfg oracle fuel attempt sleeps).2.2 =
        sleeps ++ List.replicate (cfg.retry_count - attempt) cfg.retry_delay := by
  intro fuel
  induction fuel with
  | zero =>
    -- with at most `retry_count` as the attempt number and the fuel
    -- invariant, fuel 0 cannot occur
    intro attempt sleeps hsum h1 h2
    omega
  | succ f ih =>
    intro attempt sleeps hsum h1 h2
    obtain ⟨msg, hmsg⟩ := hconn attempt
    simp only [checkRemoteGo, hmsg]
    by_cases hlt : attempt < cfg.retry_count
    · rw [if_pos hlt]
      have := ih (attempt + 1) (sleeps ++ [cfg.retry_delay]) (by omega)
        (by omega) (by omega)
      refine ⟨this.1, this.2.1, this.2.2.1, ?_⟩
      rw [this.2.2.2, List.append_assoc]
      congr 1
      rw [show cfg.retry_count - attempt = (cfg.retry_count - (attempt + 1)) + 1
        by omega, List.replicate_succ]
      simp
    · rw [if_neg hlt]
      have hae : attempt = cfg.retry_count := by omega
      simp [hae]

theorem connRefused_is_indicator (err : String)
    (h : pyContains err "Connection refused" = true) :
    isSshIndicator err = true := by
  have hinf : "Connection refused".data <:+: err.data := of_decide_eq_true h
  have hmap := List.IsInfix.map Char.toLower hinf
  have heq : "Connection refused".data.map Char.toLower =
      "connection refused".data := by decide
  rw [heq] at hmap
  have hc : pyContains (pyLower err) "connection refused" = true := by
    simp only [pyContains, pyLower]
    exact decide_eq_true hmap
  simp [isSshIndicator, sshErrorIndicators, hc]

/-- C4: a non-zero-exit listing whose stderr contains "Connection
refused" is classified as a connectivity error: it is retried with the
fixed delay up to the configured cap and becomes terminal with
`ssh_error = true` only after `retry_count` attempts; a non-zero-exit
listing whose stderr contains "No such file or directory" and no
connectivity indicator is legitimate absence: terminal after exactly one
attempt with no retry sleeps, reported with `ssh_error = false`. -/
theorem C4_connectivity_vs_absence (cfg : RsyncConfig)
    (hrc : 1 ≤ cfg.retry_count) :
    (∀ oracle : Nat → ListingOutcome,
      (∀ i, ∃ rc out err, oracle i = ListingOutcome.completed rc out err ∧
        rc ≠ 0 ∧ pyContains err "Connection refused" = true) →
      (check_remote_file_exists cfg oracle).1.1 = false ∧
      (check_remote_file_exists cfg oracle).1.2.ssh_error = true ∧
      (check_remote_file_exists cfg oracle).2.1 = cfg.retry_count ∧
      (check_remote_file_exists cfg oracle).2.2 =
        List.replicate (cfg.retry_count - 1) cfg.retry_delay) ∧
    (∀ (oracle : Nat → ListingOutcome) (rc : Int) (out err : String),
      oracle 1 = ListingOutcome.completed rc out err → rc ≠ 0 →
      pyContains err "No such file or directory" = true →
      isSshIndicator err = false →
      check_remote_file_exists cfg oracle =
        ((false,
          { files := [], total_size_bytes := 0, total_size_human := "0 B",
            file_count := 0, raw_output := err, error := some err,
            ssh_error := false }), 1, [])) := by
  constructor
  · intro oracle hconn
    have hstep : ∀ i, ∃ msg,
        check_remote_file_exists_single (oracle i) = .connectionIssue msg := by
      intro i
      obtain ⟨rc, out, err, ho, hrc0, hcr⟩ := hconn i
      refine ⟨"SSH connection issue: " ++ pyStrip err, ?_⟩
      simp [check_remote_file_exists_single, ho, hrc0,
        connRefused_is_indicator err hcr]
    have := checkRemoteGo_all_conn cfg oracle hstep cfg.retry_count 1 []
      (by omega) (by omega) hrc
    exact ⟨this.1, this.2.1, this.2.2.1, by simpa using this.2.2.2⟩
  · intro oracle rc out err ho hrc0 hnsf hind
    obtain ⟨f, hf⟩ : ∃ f, cfg.retry_count = f + 1 :=
      ⟨cfg.retry_count - 1, by omega⟩
    simp [check_remote_file_exists, hf, checkRemoteGo,
      check_remote_file_exists_single, ho, hrc0, hind]

/-- Witness for C4: a host refusing connections on every attempt, and a
host whose path is absent on the first attempt, with the default
configuration. -/
theorem C4_connectivity_vs_absence_witness :
    (check_remote_file_exists {}
      (fun _ => ListingOutcome.completed 255 ""
        "ssh: connect to host node1 port 22: Connection refused")).1.1
      = false ∧
    (check_remote_file_exists {}
      (fun _ => ListingOutcome.completed 255 ""
        "ssh: connect to host node1 port 22: Connection refused")).1.2.ssh_error
      = true ∧
    (check_remote_file_exists {}
      (fun _ => ListingOutcome.completed 255 ""
        "ssh: connect to host node1 port 22: Connection refused")).2.1
      = RsyncConfig.retry_count {} ∧
    (check_remote_file_exists {}
      (fun _ => ListingOutcome.completed 255 ""
        "ssh: connect to host node1 port 22: Connection refused")).2.2
      = List.replicate (RsyncConfig.retry_count {} - 1)
          (RsyncConfig.retry_delay {}) ∧
    check_remote_file_exists {}
      (fun _ => ListingOutcome.completed 2 ""
        "ls: cannot access /var/log/foo: No such file or directory") =
      ((false,
        { files := [], total_size_bytes := 0, total_size_human := "0 B",
          file_count := 0,
          raw_output := "ls: cannot access /var/log/foo: No such file or directory",
          error := some "ls: cannot access /var/log/foo: No such file or directory",
          ssh_error := false }), 1, []) := by
  have ha := (C4_connectivity_vs_absence {} (by decide)).1
    (fun _ => ListingOutcome.completed 255 ""
      "ssh: connect to host node1 port 22: Connection refused")
    (fun i => ⟨255, "", "ssh: connect to host node1 port 22: Connection refused",
      rfl, by decide, by decide⟩)
  have hb := (C4_connectivity_vs_absence {} (by decide)).2
    (fun _ => ListingOutcome.completed 2 ""
      "ls: cannot access /var/log/foo: No such file or directory")
    2 "" "ls: cannot access /var/log/foo: No such file or directory"
    rfl (by decide) (by decide) (by decide)
  exact ⟨ha.1, ha.2.1, ha.2.2.1, ha.2.2.2, hb⟩

/-! ## `write_failure_log` (src/rsync_manager.py lines 648-678)

The touched filesystem state is the log file's parent directory and the
log file's content; `open(log_path, 'a')` appends.  The
`datetime.now().isoformat()` timestamp is passed in. -/

/-- The filesystem state `write_failure_log` can touch. -/
structure FailureLogFS where
  parent_exists : Bool
  content : String
deriving Repr, DecidableEq

/-- An 80-character ruler of `=`. -/
def eqLine80 : String := String.mk (List.replicate 80 '=')

/-- An 80-character ruler of `-`. -/
def dashLine80 : String := String.mk (List.replicate 80 '-')

/-- The banner written once per invocation when there are failures. -/
def failureHeader (now : String) : String :=
  "\n" ++ eqLine80 ++ "\n" ++ "Log collection failures - " ++ now ++ "\n" ++
  eqLine80 ++ "\n\n"

/-- The block written for one failed result. -/
def failureBlock (r : JobResult) : String :=
  "Host: " ++ r.job.hostname ++ "\n" ++
  "Application: " ++ r.job.app_name ++ "\n" ++
  "Remote path: " ++ r.job.remote_path ++ "\n" ++
  "Attempts: " ++ toString r.attempts ++ "\n" ++
  "Return code: " ++ toString r.return_code ++ "\n" ++
  "STDERR:\n" ++ r.stderr ++ "\n" ++
  dashLine80 ++ "\n\n"

/-- `write_failure_log`: `log_path.parent.mkdir(parents=True,
exist_ok=True)` runs first, unconditionally; with no failed results the
function then returns; otherwise it appends the banner and one block per
failed result. -/
def write_failure_log (st : RsyncManagerState) (now : String)
    (fs : FailureLogFS) : FailureLogFS :=
  let fs1 : FailureLogFS := { fs with parent_exists := true }
  let failed_results := st.results.filter (fun r => !r.success)
  if failed_results.isEmpty then fs1
  else
    { fs1 with content := fs1.content ++ failureHeader now ++
        String.join (failed_results.map failureBlock) }

/-- Counterexample to C7 as stated: with no accumulated failures and a
missing parent directory, `write_failure_log` does change the filesystem —
it creates the parent directory before checking for failures. -/
theorem C7_no_failures_not_noop :
    write_failure_log {} "2026-01-01T00:00:00"
      { parent_exists := false, content := "" } ≠
      { parent_exists := false, content := "" } := by
  decide

/-- C7 (amended): with no failed outcomes `write_failure_log` writes
nothing to the log file — its content is unchanged — though it still
unconditionally ensures the log's parent directory exists; with failed
outcomes it appends (never truncates) the banner plus exactly one block
per failed outcome, after creating parent directories as needed. -/
theorem C7_write_failure_log (st : RsyncManagerState) (now : String)
    (fs : FailureLogFS) :
    ((st.results.filter (fun r => !r.success)).isEmpty = true →
      (write_failure_log st now fs).content = fs.content) ∧
    (write_failure_log st now fs).parent_exists = true ∧
    (∃ suffix,
      (write_failure_log st now fs).content = fs.content ++ suffix ∧
      ((st.results.filter (fun r => !r.success)).isEmpty = false →
        suffix = failureHeader now ++
          String.join ((st.results.filter (fun r => !r.success)).map
            failureBlock))) := by
  by_cases h : (st.results.filter (fun r => !r.success)).isEmpty
  · refine ⟨fun _ => ?_, ?_, "", ?_, fun hf => by rw [h] at hf; cases hf⟩
    · simp [write_failure_log, h]
    · simp [write_failure_log, h]
    · simp [write_failure_log, h]
  · refine ⟨fun hf => absurd hf h, ?_,
      failureHeader now ++
        String.join ((st.results.filter (fun r => !r.success)).map
          failureBlock), ?_, fun _ => rfl⟩
    · simp [write_failure_log, h]
    · simp [write_failure_log, Bool.of_not_eq_true h, String.append_assoc]

/-- A failed sample result, for the C7 witness. -/
def sampleFailedResult : JobResult :=
  { job := sampleJob, success := false, stdout := "",
    stderr := "Timeout after 300s", return_code := -1, attempts := 3 }

/-- Witness for C7 (amended) at a state holding one failed result. -/
theorem C7_write_failure_log_witness :
    (((RsyncManagerState.mk [sampleFailedResult]).results.filter
        (fun r => !r.success)).isEmpty = true →
      (write_failure_log (RsyncManagerState.mk [sampleFailedResult])
        "2026-01-01T00:00:00"
        { parent_exists := false, content := "old" }).content = "old") ∧
    (write_failure_log (RsyncManagerState.mk [sampleFailedResult])
      "2026-01-01T00:00:00"
      { parent_exists := false, content := "old" }).parent_exists = true ∧
    (∃ suffix,
      (write_failure_log (RsyncManagerState.mk [sampleFailedResult])
        "2026-01-01T00:00:00"
        { parent_exists := false, content := "old" }).content =
          "old" ++ suffix ∧
      (((RsyncManagerState.mk [sampleFailedResult]).results.filter
          (fun r => !r.success)).isEmpty = false →
        suffix = failureHeader "2026-01-01T00:00:00" ++
          String.join (((RsyncManagerState.mk [sampleFailedResult]).results.filter
            (fun r => !r.success)).map failureBlock))) :=
  C7_write_failure_log (RsyncManagerState.mk [sampleFailedResult])
    "2026-01-01T00:00:00" { parent_exists := false, content := "old" }

/-! ## The incremental archiver (src/compression_manager.py)

Per-endpoint state: whether the endpoint's directory under the base path
exists, the current local file tree (paths relative to the base path, in
`os.walk` order), the persisted tracked set, and the containers created
so far (each identified by its list of archived relative paths).
`datetime`-based container names carry no logic, so a container is
modelled by its contents.  The persisted tracked set is a Python `set`
written one sorted path per line; it is modelled as a list up to
membership. -/

/-- Per-endpoint archiver state. -/
structure ArchiveState where
  node_dir_exists : Bool
  files : List String
  tracked : List String
  archives : List (List String)
deriving Repr, DecidableEq

/-- `get_new_files`: all files under the endpoint directory whose
relative path is not in the tracked set; empty when the directory is
missing. -/
def get_new_files (st : ArchiveState) : List String :=
  if !st.node_dir_exists then []
  else st.files.filter (fun f => !(decide (f ∈ st.tracked)))

/-- The `tracked.add(rel_path)` loop followed by `save_tracked_files`:
set union of the loaded tracked set with the archived paths. -/
def mergeTracked (tracked newFiles : List String) : List String :=
  tracked ++ newFiles.filter (fun f => !(decide (f ∈ tracked)))

/-- The `files_to_archive` selection of `create_incremental_archive`:
in force mode every current file (none when the endpoint directory is
missing, matching the early `return None, 0`), otherwise only the new
files. -/
def filesToArchive (st : ArchiveState) (force : Bool) : List String :=
  if force then (if !st.node_dir_exists then [] else st.files)
  else get_new_files st

/-- `create_incremental_archive`: if nothing qualifies return `(None, 0)`
touching neither the tracking file nor the container store; otherwise
create one container with the chosen files, merge their relative paths
into the loaded tracked set, and persist it. -/
def create_incremental_archive (st : ArchiveState) (force : Bool) :
    (Option (List String) × Nat) × ArchiveState :=
  let files_to_archive := filesToArchive st force
  if files_to_archive.isEmpty then ((none, 0), st)
  else
    ((some files_to_archive, files_to_archive.length),
     { st with tracked := mergeTracked st.tracked files_to_archive,
               archives := st.archives ++ [files_to_archive] })

theorem cia_eq_empty (st : ArchiveState) (force : Bool)
    (h : filesToArchive st force = []) :
    create_incremental_archive st force = ((none, 0), st) := by
  simp [create_incremental_archive, h]

theorem cia_eq_nonempty (st : ArchiveState) (force : Bool)
    (h : filesToArchive st force ≠ []) :
    create_incremental_archive st force =
      ((some (filesToArchive st force), (filesToArchive st force).length),
       { st with tracked := mergeTracked st.tracked (filesToArchive st force),
                 archives := st.archives ++ [filesToArchive st force] }) := by
  simp [create_incremental_archive, h]

theorem create_incremental_archive_keeps (st : ArchiveState) (force : Bool) :
    (create_incremental_archive st force).2.node_dir_exists =
      st.node_dir_exists ∧
    (create_incremental_archive st force).2.files = st.files := by
  by_cases h : filesToArchive st force = []
  · rw [cia_eq_empty st force h]; exact ⟨rfl, rfl⟩
  · rw [cia_eq_nonempty st force h]; exact ⟨rfl, rfl⟩

theorem create_incremental_archive_tracked_mono (st : ArchiveState)
    (force : Bool) :
    ∀ x ∈ st.tracked, x ∈ (create_incremental_archive st force).2.tracked := by
  intro x hx
  by_cases h : filesToArchive st force = []
  · rw [cia_eq_empty st force h]; exact hx
  · rw [cia_eq_nonempty st force h]
    exact List.mem_append.mpr (Or.inl hx)

theorem files_tracked_after (st : ArchiveState)
    (hdir : st.node_dir_exists = true) :
    ∀ g ∈ (create_incremental_archive st false).2.files,
      g ∈ (create_incremental_archive st false).2.tracked := by
  intro g hg
  rw [(create_incremental_archive_keeps st false).2] at hg
  by_cases hm : g ∈ st.tracked
  · exact create_incremental_archive_tracked_mono st false g hm
  · have hnew : g ∈ filesToArchive st false := by
      simp [filesToArchive, get_new_files, hdir, List.mem_filter, hg, hm]
    have hne : filesToArchive st false ≠ [] := by
      intro he; rw [he] at hnew; cases hnew
    rw [cia_eq_nonempty st false hne]
    refine List.mem_append.mpr (Or.inr ?_)
    rw [List.mem_filter]
    exact ⟨hnew, by simp [hm]⟩

/-- C1: incremental archiving is idempotent.  (1) Immediately re-running
`create_incremental_archive` (non-forced) on an unchanged tree finds zero
new files, creates no container and returns `(None, 0)` — the state is
untouched.  (2) If exactly one genuinely new file `f` is added after the
first run, the second run creates exactly one new container containing
exactly `f` and reports one file. -/
theorem C1_incremental_idempotent (st : ArchiveState) (f : String) :
    (((create_incremental_archive
        (create_incremental_archive st false).2 false).1 = (none, 0)) ∧
      (create_incremental_archive
        (create_incremental_archive st false).2 false).2 =
        (create_incremental_archive st false).2) ∧
    (st.node_dir_exists = true →
      f ∉ (create_incremental_archive st false).2.tracked →
      (create_incremental_archive
        { (create_incremental_archive st false).2 with
          files := (create_incremental_archive st false).2.files ++ [f] }
        false).1 = (some [f], 1) ∧
      (create_incremental_archive
        { (create_incremental_archive st false).2 with
          files := (create_incremental_archive st false).2.files ++ [f] }
        false).2.archives =
        (create_incremental_archive st false).2.archives ++ [[f]]) := by
  have hkeep := create_incremental_archive_keeps st false
  constructor
  · -- second run on the unchanged tree
    have hempty :
        filesToArchive (create_incremental_archive st false).2 false = [] := by
      by_cases hdir : st.node_dir_exists = true
      · have hall := files_tracked_after st hdir
        have hdir2 :
            (create_incremental_archive st false).2.node_dir_exists = true := by
          rw [hkeep.1]; exact hdir
        simp only [filesToArchive, get_new_files, hdir2, Bool.not_true,
          Bool.false_eq_true, if_false, List.filter_eq_nil_iff]
        intro g hg
        simp [hall g hg]
      · have hdir2 :
            (create_incremental_archive st false).2.node_dir_exists = false := by
          rw [hkeep.1]
          exact Bool.not_eq_true _ |>.mp hdir
        simp [filesToArchive, get_new_files, hdir2]
    rw [cia_eq_empty _ false hempty]
    exact ⟨rfl, rfl⟩
  · -- one genuinely new file
    intro hdir hfnew
    have hall := files_tracked_after st hdir
    have hdir2 : (create_incremental_archive st false).2.node_dir_exists = true := by
      rw [hkeep.1]; exact hdir
    have hnew : filesToArchive
        { (create_incremental_archive st false).2 with
          files := (create_incremental_archive st false).2.files ++ [f] }
        false = [f] := by
      simp only [filesToArchive, get_new_files, hdir2, Bool.not_true,
        Bool.false_eq_true, if_false, List.filter_append]
      rw [List.filter_eq_nil_iff.mpr (fun g hg => by simp [hall g hg]),
        List.nil_append]
      simp [hfnew]
    rw [cia_eq_nonempty _ false (by rw [hnew]; exact (by simp))]
    rw [hnew]
    exact ⟨rfl, rfl⟩

/-- Witness for C1: a one-file tree archived once, then extended by one
new file. -/
theorem C1_incremental_idempotent_witness :
    ((ArchiveState.mk true ["node1/app.log"] [] []).node_dir_exists = true ∧
      "node1/new.log" ∉ (create_incremental_archive
        (ArchiveState.mk true ["node1/app.log"] [] []) false).2.tracked) ∧
    (create_incremental_archive
      { (create_incremental_archive
          (ArchiveState.mk true ["node1/app.log"] [] []) false).2 with
        files := (create_incremental_archive
          (ArchiveState.mk true ["node1/app.log"] [] []) false).2.files ++
          ["node1/new.log"] }
      false).1 = (some ["node1/new.log"], 1) := by
  refine ⟨⟨rfl, by decide⟩, ?_⟩
  exact ((C1_incremental_idempotent
    (ArchiveState.mk true ["node1/app.log"] [] []) "node1/new.log").2
    rfl (by decide)).1

/-- C10: the persisted tracked set is monotonically non-decreasing under
every `create_incremental_archive` call, force mode included: force mode
archives every current file and merges the archived paths into the
previously loaded tracked set before persisting, so previously tracked
paths are never removed and the set is never reset. -/
theorem C10_tracked_monotone (st : ArchiveState) (force : Bool) :
    (∀ x ∈ st.tracked, x ∈ (create_incremental_archive st force).2.tracked) ∧
    (force = true → st.node_dir_exists = true → st.files ≠ [] →
      (create_incremental_archive st force).1 =
        (some st.files, st.files.length) ∧
      ∀ g ∈ st.files, g ∈ (create_incremental_archive st force).2.tracked) := by
  refine ⟨create_incremental_archive_tracked_mono st force, ?_⟩
  intro hforce hdir hne
  subst hforce
  have hfta : filesToArchive st true = st.files := by
    simp [filesToArchive, hdir]
  rw [cia_eq_nonempty st true (by rw [hfta]; exact hne), hfta]
  refine ⟨rfl, ?_⟩
  intro g hg
  by_cases hm : g ∈ st.tracked
  · exact List.mem_append.mpr (Or.inl hm)
  · refine List.mem_append.mpr (Or.inr ?_)
    rw [List.mem_filter]
    exact ⟨hg, by simp [hm]⟩

/-- Witness for C10: a force-mode run over a two-file tree with one
already-tracked and one stale tracked path. -/
theorem C10_tracked_monotone_witness :
    (∀ x ∈ (ArchiveState.mk true ["node1/a.log", "node1/b.log"]
        ["node1/a.log", "node1/gone.log"] []).tracked,
      x ∈ (create_incremental_archive
        (ArchiveState.mk true ["node1/a.log", "node1/b.log"]
          ["node1/a.log", "node1/gone.log"] []) true).2.tracked) ∧
    ((true : Bool) = true →
      (ArchiveState.mk true ["node1/a.log", "node1/b.log"]
        ["node1/a.log", "node1/gone.log"] []).node_dir_exists = true →
      (ArchiveState.mk true ["node1/a.log", "node1/b.log"]
        ["node1/a.log", "node1/gone.log"] []).files ≠ [] →
      (create_incremental_archive
        (ArchiveState.mk true ["node1/a.log", "node1/b.log"]
          ["node1/a.log", "node1/gone.log"] []) true).1 =
        (some (ArchiveState.mk true ["node1/a.log", "node1/b.log"]
          ["node1/a.log", "node1/gone.log"] []).files,
         (ArchiveState.mk true ["node1/a.log", "node1/b.log"]
          ["node1/a.log", "node1/gone.log"] []).files.length) ∧
      ∀ g ∈ (ArchiveState.mk true ["node1/a.log", "node1/b.log"]
          ["node1/a.log", "node1/gone.log"] []).files,
        g ∈ (create_incremental_archive
          (ArchiveState.mk true ["node1/a.log", "node1/b.log"]
            ["node1/a.log", "node1/gone.log"] []) true).2.tracked) :=
  C10_tracked_monotone
    (ArchiveState.mk true ["node1/a.log", "node1/b.log"]
      ["node1/a.log", "node1/gone.log"] []) true

/-! ## `compress_all_hosts` (src/compression_manager.py lines 198-240)

The loop body calls `create_incremental_archive` for one endpoint inside
`try/except`.  The call's behaviour — its `(archive_path, file_count)`
return or the exception it raises — is supplied as an oracle over the
endpoint name, so distinct endpoints are handled by independent oracle
values, exactly as each loop iteration touches only its own endpoint. -/

/-- One endpoint's entry in the report dictionary: the success shape
carries `archive_path` (possibly `None`) and `file_count`; the failure
shape carries the exception text and `file_count = 0`. -/
inductive CompressEntry where
  | ok (archive_path : Option String) (file_count : Nat)
  | failed (error : String) (file_count : Nat)
deriving Repr, DecidableEq

/-- The `try/except` body for one endpoint. -/
def compressStepEntry (step : Except String (Option String × Nat)) :
    CompressEntry :=
  match step with
  | .ok (p, n) => .ok p n
  | .error e => .failed e 0

/-- `compress_all_hosts`: one report entry per endpoint directory found
under the base path (the container-storage subdirectory is excluded by
the caller's directory scan, reflected in `host_dirs`). -/
def compress_all_hosts (host_dirs : List String)
    (step : String → Except String (Option String × Nat)) :
    List (String × CompressEntry) :=
  host_dirs.map (fun h => (h, compressStepEntry (step h)))

theorem compress_lookup (host_dirs : List String)
    (step : String → Except String (Option String × Nat)) (h : String)
    (hmem : h ∈ host_dirs) :
    List.lookup h (compress_all_hosts host_dirs step) =
      some (compressStepEntry (step h)) := by
  induction host_dirs with
  | nil => cases hmem
  | cons x xs ih =>
    rcases List.mem_cons.mp hmem with hx | hx
    · subst hx
      simp [compress_all_hosts, List.lookup]
    · by_cases hxe : h = x
      · subst hxe
        simp [compress_all_hosts, List.lookup]
      · have := ih hx
        simp only [compress_all_hosts, List.map_cons, List.lookup,
          beq_eq_false_iff_ne.mpr hxe] at this ⊢
        exact this

/-- C6: endpoints are isolated failure domains in `compress_all_hosts`.
If the archive step for endpoint `A` raises, `A`'s report entry is the
failure shape with the exception text and zero files; every endpoint in
the scan still gets a report entry; and each endpoint's entry depends
only on its own archive step's outcome. -/
theorem C6_compress_isolated (host_dirs : List String)
    (step : String → Except String (Option String × Nat))
    (A : String) (e : String) (hA : A ∈ host_dirs)
    (he : step A = Except.error e) :
    List.lookup A (compress_all_hosts host_dirs step) =
      some (CompressEntry.failed e 0) ∧
    (∀ B ∈ host_dirs,
      (List.lookup B (compress_all_hosts host_dirs step)).isSome = true) ∧
    (∀ B ∈ host_dirs,
      ∀ step' : String → Except String (Option String × Nat),
        step' B = step B →
        List.lookup B (compress_all_hosts host_dirs step') =
          List.lookup B (compress_all_hosts host_dirs step)) := by
  refine ⟨?_, ?_, ?_⟩
  · rw [compress_lookup host_dirs step A hA, he]
    rfl
  · intro B hB
    rw [compress_lookup host_dirs step B hB]
    rfl
  · intro B hB step' hs
    rw [compress_lookup host_dirs step B hB,
      compress_lookup host_dirs step' B hB, hs]

/-- A two-endpoint archive step for the C6 witness: endpoint `node1`
raises, endpoint `node2` succeeds with one archived file. -/
def sampleCompressStep (h : String) : Except String (Option String × Nat) :=
  if h = "node1" then Except.error "disk full"
  else Except.ok (some ("logs/archives/" ++ h ++ "_20260101.tar.gz"), 1)

/-- Witness for C6 with two endpoints, one failing. -/
theorem C6_compress_isolated_witness :
    List.lookup "node1" (compress_all_hosts ["node1", "node2"]
      sampleCompressStep) = some (CompressEntry.failed "disk full" 0) ∧
    (∀ B ∈ ["node1", "node2"],
      (List.lookup B (compress_all_hosts ["node1", "node2"]
        sampleCompressStep)).isSome = true) ∧
    (∀ B ∈ ["node1", "node2"],
      ∀ step' : String → Except String (Option String × Nat),
        step' B = sampleCompressStep B →
        List.lookup B (compress_all_hosts ["node1", "node2"] step') =
          List.lookup B (compress_all_hosts ["node1", "node2"]
            sampleCompressStep)) :=
  C6_compress_isolated ["node1", "node2"] sampleCompressStep "node1"
    "disk full" (by decide) (by simp [sampleCompressStep])

/-! ## Bounded concurrency of batch execution
(src/rsync_manager.py lines 531-556 and 558-593)

`execute_jobs` and `explore_jobs` both wrap every job in
`async with semaphore` for `semaphore = asyncio.Semaphore(
self.max_parallel_jobs)` and then `await asyncio.gather(*tasks)`.  This
admission discipline is embedded as a transition system over the counts
of waiting / running (permit held) / finished jobs plus the semaphore's
free-permit count: `start` acquires a permit ( `__aenter__` ), `finish`
releases it when the job's `execute_job` coroutine returns, whatever its
outcome ( `__aexit__` runs on success and failure alike), and
`asyncio.gather` corresponds to `finished = n`. -/

/-- Counting abstraction of one `execute_jobs` batch in flight. -/
structure BatchState where
  waiting : Nat
  running : Nat
  finished : Nat
  permits : Nat
deriving Repr, DecidableEq

/-- The state at the start of a batch of `n` jobs with
`max_parallel_jobs = K`: all jobs waiting, all permits free. -/
def batchInit (K n : Nat) : BatchState := ⟨n, 0, 0, K⟩

/-- One scheduler step: a waiting job acquires a free permit and starts,
or a running job reaches its terminal outcome and releases its permit
(regardless of success or failure). -/
inductive BatchStep : BatchState → BatchState → Prop where
  | start (s : BatchState) (hw : 0 < s.waiting) (hp : 0 < s.permits) :
      BatchStep s ⟨s.waiting - 1, s.running + 1, s.finished, s.permits - 1⟩
  | finish (s : BatchState) (hr : 0 < s.running) :
      BatchStep s ⟨s.waiting, s.running - 1, s.finished + 1, s.permits + 1⟩

/-- States reachable during one batch. -/
inductive BatchReachable (K n : Nat) : BatchState → Prop where
  | init : BatchReachable K n (batchInit K n)
  | step {s s' : BatchState} : BatchReachable K n s → BatchStep s s' →
      BatchReachable K n s'

/-- C9: with `max_parallel_jobs = K`, at no reachable point of a batch
are more than `K` jobs in flight — a permit is held by each running job
(`running + permits = K`) — no job is lost or duplicated
(`waiting + running + finished = n`), and the batch barrier
(`asyncio.gather`, all `n` jobs finished) holds exactly when no job is
still waiting or running. -/
theorem C9_bounded_concurrency (K n : Nat) (s : BatchState)
    (h : BatchReachable K n s) :
    s.running ≤ K ∧ s.running + s.permits = K ∧
    s.waiting + s.running + s.finished = n ∧
    (s.finished = n ↔ s.waiting = 0 ∧ s.running = 0) := by
  induction h with
  | init =>
    simp [batchInit]
    omega
  | step hreach hstep ih =>
    obtain ⟨ih1, ih2, ih3, ih4⟩ := ih
    cases hstep with
    | start hw hp =>
      refine ⟨?_, ?_, ?_, ?_⟩ <;> dsimp only <;> omega
    | finish hr =>
      refine ⟨?_, ?_, ?_, ?_⟩ <;> dsimp only <;> omega

/-- Witness for C9 at the initial state of a batch of three jobs under
two permits. -/
theorem C9_bounded_concurrency_witness :
    (batchInit 2 3).running ≤ 2 ∧
    (batchInit 2 3).running + (batchInit 2 3).permits = 2 ∧
    (batchInit 2 3).waiting + (batchInit 2 3).running +
      (batchInit 2 3).finished = 3 ∧
    ((batchInit 2 3).finished = 3 ↔
      (batchInit 2 3).waiting = 0 ∧ (batchInit 2 3).running = 0) :=
  C9_bounded_concurrency 2 3 (batchInit 2 3) BatchReachable.init
